import Mathlib

set_option maxRecDepth 8192

/-!
Shallow embedding of the semiotic-blog lookup core: the Post Catalog
(`blogPosts`), the Content Table (`blogContent`), the Resolver (the
`BlogPost` page component joining the two tables by identifier), and the
Listing Partition (the `BlogGrid` component splitting the catalog into a
featured record and the rest).
-/

/-- Post metadata record, translating the TypeScript interface `BlogPost`
(src/src/data/blogPosts.ts).  The optional `featured?: boolean` field is
modelled as a `Bool` that is `false` when the source omits it, matching the
JavaScript truthiness with which the code reads it. -/
structure BlogPost where
  id : String
  title : String
  excerpt : String
  category : String
  image : String
  url : String
  featured : Bool
  deriving DecidableEq, Repr

/-- Value produced by JavaScript bracket indexing on a plain object literal:
either an own string entry of the object, or a member inherited from
`Object.prototype` (a function, hence truthy). -/
inductive JSVal where
  | str : String → JSVal
  | protoFn : JSVal
  deriving DecidableEq, Repr

/-- Outcome of the Resolver: a resolved pair of metadata and body, or the
single unified absence outcome (the "Post not found" branch of the
`BlogPost` page component in src/unnamed/part_001). -/
inductive ResolveResult where
  | found : BlogPost → JSVal → ResolveResult
  | postNotFound : ResolveResult
  deriving DecidableEq, Repr

/-- Long-form body of the Content Table entry with key "cctp-rs" (src/unnamed/part_000). -/
def body_cctp_rs : String :=
  "_How we built an open-source library that\x27s moved millions in USDC across blockchains by Joseph Livesey, Semiotic Engineering_\n\n---\n\nAt Semiotic, we often find ourselves building infrastructure that doesn\x27t exist yet. When we needed reliable cross-chain USDC transfers for our treasury management system, we discovered there was no production-ready Rust SDK for Circle\x27s Cross-Chain Transfer Protocol (CCTP). So we built one.\n\nToday, we\x27re excited to share [cctp-rs](https://github.com/semiotic-ai/cctp-rs), a type-safe, production-hardened Rust implementation of CCTP that powers millions of dollars in USDC transfers for our internal systems. With our v1.0.0 release, we\x27re making this battle-tested infrastructure available to the broader Rust and crypto ecosystem.\n\n## The Problem: Bridging at Scale\n\nOur internal Likwid service manages router assets across 15+ blockchain networks. It autonomously monitors routers, liquidates accumulated tokens to USDC via DEX aggregators, and consolidates funds to a treasury on Base. This happens 24/7 without human intervention.\n\nThe bridging piece was the missing link. We needed to:\n\n- Transfer USDC from Ethereum, Arbitrum, Optimism, Avalanche, and Polygon to Base\n- Handle the full CCTP lifecycle: burn → attestation → mint\n- Survive network failures, rate limits, and third-party relayer races\n- Maintain complete observability for debugging production issues\n- Support both CCTP v1 (legacy) and v2 (with sub-30-second settlements)\n\nExisting TypeScript SDKs weren\x27t suitable for our Rust-native infrastructure. So we built cctp-rs from the ground up.\n\n## Design Philosophy: Type Safety as a Feature\n\nRust\x27s type system isn\x27t just about memory safety—it\x27s a tool for encoding domain knowledge into your code. We leveraged this extensively:\n\n### Compile-Time Chain Validation\n\n\x60\x60\x60rust\n// Chain support is checked at compile time\nlet domain_id = NamedChain::Arbitrum.cctp_domain_id()?;\nlet fee_bps = NamedChain::Arbitrum.fast_transfer_fee_bps()?;\n\n// Unsupported chains fail gracefully with typed errors\nlet err = NamedChain::Fantom.cctp_domain_id();\nassert!(matches!(err, Err(CctpError::UnsupportedChain(_))));\n\x60\x60\x60\n\n### Version-Specific APIs That Can\x27t Be Misused\n\nCCTP v1 and v2 have fundamentally different attestation lookups. v1 queries by message hash; v2 queries by transaction hash. This is easy to confuse, and the wrong choice means failed mints.\n\nWe solved this with separate types:\n\n\x60\x60\x60rust\n// V1: Query by message hash\nlet attestation = Cctp::get_attestation(message_hash, ...).await?;\n\n// V2: Query by transaction hash, returns canonical message\nlet (message, attestation) = CctpV2Bridge::get_attestation(tx_hash, ...).await?;\n\x60\x60\x60\n\nYou literally cannot call the wrong method—the compiler won\x27t let you.\n\n### The V2 Nonce Foot-Gun\n\nHere\x27s a subtle bug we caught: CCTP v2\x27s \x60MessageSent\x60 event emits a \"template\" message with zeros in the nonce field. Circle\x27s attestation service fills in the actual nonce before signing. If you use the message from the logs for minting, it will fail.\n\nOur v2 API handles this automatically:\n\n\x60\x60\x60rust\n// get_attestation() always returns the canonical message from Circle\x27s API\nlet (canonical_message, attestation) = bridge.get_attestation(tx_hash, ...).await?;\n// Use canonical_message for minting—it has the correct nonce\n\x60\x60\x60\n\nThis design choice eliminated an entire class of production bugs.\n\n## Relayer-Aware Design for the Real World\n\nCCTP v2 is permissionless. Once Circle attests a message, _anyone_ can relay it. On mainnet, third-party relayers actively monitor burns and may complete your transfer before your application does.\n\nThis isn\x27t a bug; it\x27s a feature of decentralized systems. But it means your code needs to handle races gracefully:\n\n\x60\x60\x60rust\nuse cctp_rs::\x7bCctpV2Bridge, MintResult\x7d;\n\nmatch bridge.mint_if_needed(message, attestation, from).await? \x7b\n    MintResult::Minted(tx_hash) => \x7b\n        log::info!(\"Minted via our relayer: \x7btx_hash\x7d\");\n    \x7d\n    MintResult::AlreadyRelayed => \x7b\n        log::info!(\"Transfer completed by third-party relayer\");\n    \x7d\n\x7d\n\x60\x60\x60\n\nThe \x60mint_if_needed()\x60 method checks the on-chain nonce status before attempting a mint, preventing wasted gas and failed transactions.\n\n## Production Hardening: The Details That Matter\n\n### HTTP Timeouts and Retry Logic\n\n\x60\x60\x60rust\nlet client = Client::builder()\n    .timeout(Duration::from_secs(30))\n    .build()?;\n\x60\x60\x60\n\nWe poll Circle\x27s Iris API with configurable retry logic:\n\n- Rate limit handling (429 → sleep 5 minutes)\n- 404 responses treated as \"pending, retry\"\n- Configurable max attempts and poll intervals\n\n### Comprehensive Error Types\n\n\x60\x60\x60rust\n#[derive(Error, Debug)]\npub enum CctpError \x7b\n    UnsupportedChain(NamedChain),\n    AlreadyRelayed \x7b original: String \x7d,\n    AttestationTimeout,\n    AttestationFailed \x7b reason: String \x7d,\n\x7d\n\x60\x60\x60\n\nNo string-based errors. No panics. Every failure mode has a typed representation.\n\n## The Numbers\n\n- **26+ supported chains** across mainnet and testnet\n- **v2.0.0 stable** with semantic versioning\n- **Millions of USDC** bridged in production via Likwid\n\n## How Likwid Uses cctp-rs\n\nOur treasury consolidation flow:\n\n1. **Extraction**: Discover tokens accumulated in routers across 15+ chains\n2. **Liquidation**: Swap tokens to USDC via Odos aggregator when thresholds are met\n3. **Bridging**: Move USDC to Base via CCTP v2\n4. **State tracking**: PostgreSQL tracks the full lifecycle (burn → attestation → mint)\n\n## Get Started\n\n\x60\x60\x60toml\n[dependencies]\ncctp-rs = \"2.0.0\"\n\x60\x60\x60\n\n\x60\x60\x60rust\nuse cctp_rs::\x7bCctpV2Bridge, CctpError\x7d;\nuse alloy_chains::NamedChain;\n\nlet bridge = CctpV2Bridge::builder()\n    .source_chain(NamedChain::Mainnet)\n    .destination_chain(NamedChain::Base)\n    .source_provider(eth_provider)\n    .destination_provider(base_provider)\n    .recipient(recipient)\n    .build();\n\nlet burn_tx = burn_usdc(&bridge, amount).await?;\nlet (message, attestation) = bridge.get_attestation(burn_tx, None, None).await?;\nbridge.mint_if_needed(message, attestation, from).await?;\n\x60\x60\x60\n\nCheck out the [examples](https://github.com/semiotic-ai/cctp-rs/tree/main/examples) for complete working code.\n\n## What\x27s Next\n\nWe\x27re continuing to evolve cctp-rs as Circle expands CCTP support:\n\n- New chain additions as Circle announces them\n- Performance optimizations for high-frequency use cases\n- Enhanced hook support for programmable transfers\n\nThe crate is Apache 2.0 licensed and we welcome contributions.\n\n---\n\n_cctp-rs is open source at [github.com/semiotic-ai/cctp-rs](https://github.com/semiotic-ai/cctp-rs). Documentation is available at [docs.rs/cctp-rs](https://docs.rs/cctp-rs)._\n\n_Semiotic AI builds financial infrastructure. Learn more at [semiotic.ai](https://www.semiotic.ai)._"

/-- Long-form body of the Content Table entry with key "verifiable-extraction" (src/unnamed/part_000). -/
def body_verifiable_extraction : String :=
  "The Graph is a decentralized protocol organizing blockchain data for easy access. Indexers maintain this organized data and provide a way for developers, dapps, and data analysts to query the data they need.\n\nIn order to provide accurate results and avoid slashing, an Indexer should ensure that the data they are using to respond to queries is correct and reflects the recorded history of the protocol from which it was derived. Here we discuss _Verifiable Extraction_, the process of verifying that data pulled from a blockchain accurately reflects the chain\x27s ledger.\n\n## Sources of Information\n\nAn Indexer can retrieve, or _extract_, blocks from a chain for indexing and querying services by different means. These include direct access to an archive node, file sharing among Indexers, or pulling from a central repository of information.\n\nBelow we will discuss what it means for blockchain data to be verifiable, how verification can be carried out, and how Semiotic\x27s [veemon](https://github.com/semiotic-ai/veemon) project provides source code in Rust to verify Ethereum blocks.\n\n## Verifiable Data: Integrity and Authentication\n\nWhen Alice shares a file with Bob, how can Bob trust that the file has not been altered in transit, and that he has the same information that Alice has? Bob needs to verify the _integrity_ of the information. Alice makes a claim involving the file\x27s contents and sends this claim to Bob along with the file. Bob can reconstruct the claim from the information he receives and verify that it matches the one Alice sent.\n\nA useful claim is easy to reconstruct and verify, and should only correspond to the message from which it was constructed. In the context of SNARKs, such a claim is called a _commitment_.\n\n### Example: Hash Functions\n\nA _cryptographic hash function_ is practical for verifying information integrity. This is a function with the following properties:\n\n- The output of the hash function (the _hash_) is a fixed size, regardless of the size of the input.\n- It is easy to compute the output, but difficult to find an input for a given output (one-way function).\n- Given an input-output pair, it is difficult to construct another input which gives the same output.\n\nA simple example of an integrity verification scheme which typically uses a hash function is a checksum.\n\nWith this Alice and Bob example, we have illustrated two necessary components of verifiable data:\n\n1. **Integrity**: The data is correct.\n2. **Authentication**: The data came from a trusted source.\n\n## Integrity: Verifying the Contents of the Block\n\nAn Indexer using information from a blockchain could extract that information by various means, including from a shared file, a data repository, or by direct RPC request.\n\nStreamingFast\x27s Firehose enables the creation of binary flat files which can be easily shared and archived among Indexers. These flat files generalize execution blocks from multiple chains via Google Protocol Buffer (Protobuf) definitions.\n\nThe benefits of using verifiable data—such as Firehose flat files—as a source for Indexers include:\n\n1. Indexers can share files without needing to trust each other\n2. An Indexer needs to ensure that the data it provides to an end user has integrity\n3. Historical blockchain data must be maintained for developers who require it\n\nThe transactions root is calculated by constructing a Merkle tree, which uses a hash function to incorporate information from a group of transactions (the leaves) into a single hash output (the root). Any change in a recorded transaction will result in a change to the commitment.\n\n**1. The contents of the block should be associated with a commitment that can be verified.**\n\n## Authentication: Verifying the Source of the Block\n\nBy verifying the contents of the block, an Indexer can ensure that a block is self-consistent. But what is to prevent Alice from changing or omitting a transaction in the original block, recalculating the transactions root and block hash based on this erroneous information?\n\nTo address this issue, we need to verify that the block itself came from a trusted source. Our ultimate source of trust here is the blockchain ledger.\n\n**2. The block can be shown to match the blockchain\x27s ledger.**\n\n### Proof of Inclusion in the Chain\x27s History\n\nSimilar to how there is a transactions root commitment to a group of transactions, we can construct a commitment to a group of block hashes. A group here is equal to 8,192 block hashes and is called an _era_. By calculating the root of a Merkle tree with these block hashes at the leaves, we create a commitment to this era.\n\nA verifier compares this root to a trusted record of roots for all eras in the Ethereum history. The Portal Network maintains a record of these era-based roots called a Header Accumulator.\n\n## veemon: Verifiable Extraction in Rust\n\nSemiotic Labs maintains source code in Rust to perform verifiable extraction of Ethereum blocks. The [veemon](https://github.com/semiotic-ai/veemon/) repository provides the capability to parse StreamingFast .dbin files containing Ethereum blocks, and to verify the content and history of pre-Merge and post-Merge blocks.\n\nAs information from decentralized protocols is extracted by Graph Indexers and served to end users, it is important to ensure that the information is trustworthy. Indexers serving up blockchain records must be able to verify that the data is correct according to the consensus of the blockchain."

/-- Long-form body of the Content Table entry with key "homomorphic-signatures" (src/unnamed/part_000). -/
def body_homomorphic_signatures : String :=
  "_This post was co-authored by Carollan Helinski, Severiano Sisneros, and Pedro Henrique Bufulin de Almeida at Semiotic Labs._\n\n## Introduction\n\nYou\x27re a coffee shop owner looking to minimize your costs of doing business. You notice that credit card transaction fees are inflating the price you charge to your customers. So you have an idea: rather than paying with credit card for each transaction, you let your customers pay with an IOU. At the end of the month you tally the customer\x27s IOUs and ask the customer to pay the total amount using a single credit card transaction.\n\nBut, what happens if you have a customer who runs up a large tally and then never comes back? It would be great if you could prove that all the IOUs came from the untrustworthy customer and also prove the value of the sum of all the IOUs.\n\nCryptographers solved the first half of the problem in the early days of public-key cryptography by inventing digital signatures. In this post we\x27re going to talk about how cryptographers solved the full problem using something called a **homomorphic signature scheme**.\n\nEssentially all \"homomorphic\" means is that if you have two values that are the output of some function and add them together, then the result is the same as first adding the two inputs together and then calculating the function on the sum.\n\nThis solution is particularly interesting in blockchain applications, where transaction fees are particularly high. You can submit a single transaction which verifies the homomorphic signature and transfers the amount owed. This is way cheaper than having to submit and verify all the individual signatures and enables interesting protocols like micropayment channels.\n\nThis post discusses design and optimization of verifiable micropayments over a state channel, a feature of Semiotic Labs\x27 [GraphTally](https://github.com/semiotic-ai/timeline-aggregation-protocol) library for The Graph.\n\n## Micropayments Using State Channels\n\nAn Ethereum-based state channel lets users conduct numerous transactions off-chain without the cost of executing each transaction on the EVM. In the case where transactions are payment transfers (a payment channel), the cost associated with fees can be greatly reduced, especially when the value of each payment is low (a so-called micropayment).\n\nSemiotic Labs\x27 GraphTally provides a library for verifying ECDSA signatures on transactions in a payment channel. The receipt for each micropayment is signed, then verified by the TAP Aggregator. The Aggregator adds together the values of all payments and creates a new signed receipt reflecting the combined value.\n\nInstead of validating each signature individually, we look to homomorphic signature schemes (HSS), where the aggregated signature is a valid signature on the sum of messages. Semiotic Labs has developed a Rust implementation, [h2s2](https://github.com/semiotic-ai/h2s2), of the protocol.\n\n## Homomorphic Signatures for Cheap and Trustless Micropayments\n\nThe network coding scheme NCS1 of Boneh et al. is an HSS consisting of four algorithms **Setup**, **Sign**, **Combine**, and **Verify**.\n\n### Cost of Verification\n\nIf the values P, Q and R are initialized as part of the smart contract, then the verification of the combination requires:\n\n- A scalar multiplication in G1, which costs 40,000 gas\n- A pairing equality check, which costs 260,000 gas\n\nTo avoid doing the hash computation on the EVM, the verification smart contract can be initialized with a precomputed value based on the expected number of receipts N.\n\n## Benchmarks\n\nThe following benchmarks were conducted on an M2 MacBook Air using our Rust implementation [h2s2](https://github.com/semiotic-ai/h2s2):\n\n- **82μs** to sign a single message\n- **1.2ms** to verify a single message\n- **58μs** to combine 32 signatures\n- **1.1ms** to verify a batch of 32 signatures\n\nThe most important thing we notice is that verifying an aggregate signature takes about the same time as verifying a single signature. For blockchain applications, this means we can batch verify any number of signatures and the on-chain costs will be independent of the number of signatures in the batch.\n\n## Conclusion\n\nBy leveraging homomorphic signature schemes, we can significantly reduce the computational costs associated with verifying aggregated micropayments, while maintaining the security and integrity of off-chain transactions."

/-- Long-form body of the Content Table entry with key "automated-query-pricing" (src/unnamed/part_000). -/
def body_automated_query_pricing : String :=
  "## TL;DR\n\nIndexers in The Graph have control over the pricing of the GraphQL queries they serve based on their shape. For this task, The Graph created a domain-specific language called Agora that maps query shapes to prices in GRT. However, manually populating and updating Agora models for each subgraph is a tedious task, and as a consequence, most indexers default to a static, flat pricing model.\n\nTo help indexers with pricing in the relative resource cost of serving different query shapes, as well as following the query market price, we are developing **AutoAgora**, an automation tool that automatically creates and updates Agora models.\n\n## Query Relative Cost Discovery\n\nThis work is based on a few trends that we have observed through analyzing the query traffic.\n\n### Observations on Received Queries\n\nOne of the major problems of GraphQL is its ability to create very computationally expensive queries. In the worst cases, it is even possible to create exponentially hard queries while the query body itself grows only linearly. We can indeed observe this on queries against the Uniswap V2 subgraph, where query execution times span 4 orders of magnitude.\n\nSimultaneously, we observed that a vast majority of the queries are based on a small number of query shapes. This is to be expected as most queries are generated programmatically from web frontends.\n\nBased on the observations above, a reasonable solution for relative query pricing is to estimate the relative cost of the most frequent queries for each subgraph.\n\n### AutoAgora Logging and Relative Costing Infrastructure\n\nAll monetized queries coming from the Gateway pass through the \x60indexer-service\x60. We modified it to output detailed query logs (subgraph hash, query, variables, GRT fees paid, execution time). These logs are then processed to normalize the queries, separate all query values from the query shapes.\n\nRelative pricing is generated periodically from the logs database. For each subgraph, query shapes that have seen more than a threshold number of queries are selected to be included in the Agora model. For each shape, the average query execution time is computed and used as the query shape cost factor in the pricing model.\n\n## Query Market Price Discovery\n\n### The Query Market\n\nIn The Graph, each subgraph on each gateway defines a query market, on which end-consumers compete to buy queries and indexers compete to serve queries based on their Agora-defined prices and quality of service.\n\nThe objective of the AutoAgora price discovery is to find the \x60$GLOBAL_COST_MULTIPLIER\x60 that optimizes the revenue rate, as well as continuously adjust it to track markets fluctuations.\n\n### AutoAgora Absolute Price Discovery\n\nTo find and continuously track the optimal price point requires continuously probing the market \"black box\" at various price points. The balance between exploration and exploitation is a reinforcement learning problem studied through the multi-armed bandit problem.\n\nWe are mapping the price discovery problem as a continuum-armed bandit problem. The policy is modeled as a Gaussian probability distribution over cost multiplier values.\n\nWe tested the AutoAgora price discovery on our own indexer (\x60semiotic-indexer.eth\x60) on mainnet with great success.\n\n## Limitations and Conclusions\n\nOur goal with AutoAgora is to help build sustainable, efficient query markets on The Graph, while also lowering the human operation costs.\n\nCurrent shortcomings include:\n- The relative cost models based only on average query shape execution time are too simplistic\n- The initial convergence speed of the market price bandit model is quite slow\n- The price bandit training is unstable on subgraphs with low query volumes\n\nThe AutoAgora components are open source under the Apache-2 license."

/-- Long-form body of the Content Table entry with key "indexer-allocation-2" (src/unnamed/part_000). -/
def body_indexer_allocation_2 : String :=
  "_This article was co-authored by Anirudh Patel, Howard Heaton from Edge & Node, and with Hope Yen from GraphOps._\n\n## TL;DR\n\nAnalytically optimizing to maximize indexing rewards may seem like a straightforward solution, but it oversimplifies the complexities involved in an Indexer\x27s decision-making process. In this post, we\x27ll discuss how we enable Indexers to input their preferences into the [Allocation Optimizer](https://github.com/graphprotocol/allocation-optimizer) and how those preferences can impact the Allocation Optimization problem. We\x27ll also explore how we incorporate a gas fee to make the optimization problem more realistic, which results in a non-convex problem.\n\n## Optimizing Over Gas\n\nGas costs have long been a challenging issue for those seeking to solve web3 optimization problems. We aim to find the set of optimal sparse vectors and then select the specific sparse vector that yields the highest profit. We define profit as the total indexing reward minus the total gas cost.\n\n### The Math At A Glance\n\nWe use gradient descent, projected gradient descent, the simplex projection, GSSP (Greedy Selector and Simplex Projector), and Halpern iteration to solve this optimization problem.\n\nThe key insight is that adding gas fees makes the originally convex objective function non-convex. This is because we\x27ve added a term depending on a binary variable that has value 1 if an allocation is nonzero and 0 otherwise.\n\nFor non-convex functions, gradient descent can get stuck at local minima rather than finding the global minimum.\n\n### Solution Approach\n\nWe solve the problem with a sparsity constraint for each value k from 1 to the number of subgraphs, giving us the optimal allocation strategy for k allocations. Then, we choose the best of these by picking the one that maximizes profit after accounting for gas costs.\n\nWhen you run the Allocation Optimizer with \x60opt_mode = \"fast\"\x60, this is exactly what the code does!\n\n### Results\n\n| | 100 GRT | 1000 GRT | 10000 GRT |\n|---|---|---|---|\n| Current Profit | 191,525.88 | 183,425.88 | 102,425.88 |\n| Optimized Profit | 540,841.27 | 469,017.12 | 333,127.37 |\n| % Increase | 282% | 255% | 325% |\n\nAs expected, higher gas costs result in fewer allocations.\n\n## Indexer Preferences\n\n### Filtering Subgraphs\n\nIndexers can specify:\n- **Blacklist**: Subgraphs to exclude from optimization\n- **Whitelist**: Only allocate to these subgraphs\n- **Frozenlist**: Keep existing allocations fixed\n- **Pinnedlist**: Ensure minimum allocation on specific subgraphs\n- **min_signal**: Filter out subgraphs with signal below a threshold\n\n### Other Preferences\n\n- **allocation_lifetime**: Determines the time frame for token issuance\n- **max_allocations**: Limits the number of subgraphs to allocate to\n\n## Conclusion\n\nIn Part II, we\x27ve demonstrated how the Allocation Optimizer accounts for Indexer preferences and how the fast mode solves the non-convex optimization problem using GSSP and Halpern iteration. However, we did not demonstrate optimality—the Allocation Optimizer also has an optimal flag that we\x27ll cover in our next blog post.\n\nCheck out our Julia package [SemioticOpt](https://github.com/semiotic-ai/SemioticOpt.jl) for the optimization techniques described here."

/-- Long-form body of the Content Table entry with key "amm-overview" (src/unnamed/part_000). -/
def body_amm_overview : String :=
  "## TL;DR\n\nThis article explores the principles and mechanisms behind the many popular Automatic Market Maker designs currently used in production. While the mathematical details of these designs are fascinating in their own right, this article seeks to focus on graphical representations and high-level concepts, allowing for a more approachable and exhaustive exploration of the space.\n\n## Introduction\n\nHistorically, order books run by professional market makers have been the dominant method used to facilitate exchange. On-chain, maintaining an order book is prohibitively expensive, since storage and computation on distributed ledgers are in short supply and high demand. For this reason, **Automatic Market Makers (AMM)** have emerged as an efficient class of methods to facilitate the exchange of crypto assets.\n\nAn AMM leverages smart contracts to allow permissionless participation in market-making. These individuals passively provide liquidity to the contract, which can then use a predetermined function to automatically facilitate exchanges between buyers and sellers.\n\n## Basic Automatic Market Makers\n\nThe first and most well-known AMM is the **Constant Product Market Maker (CPMM)**, first released by Bancor and further popularized by Uniswap. The CPMM spreads liquidity out equally between all prices, making it an extremely general solution but also very capital inefficient.\n\nThe **Constant Mean Market Maker (CMMM)**, introduced by Balancer Protocol, generalizes the CPMM by allowing the liquidity provider to specify desired portfolio weights, such as a 20%-80% split.\n\nThe extreme case is a **Constant Sum Market Maker (CSMM)**, which facilitates exchange at a fixed rate regardless of the current portfolio. This allows for perfect capital efficiency at the selected exchange rate, but quickly leads to losing all of the more valuable assets the moment the price deviates.\n\n## Hybrid Automatic Market Makers\n\n**Curve\x27s StableSwap** interpolates between CPMM and CSMM behavior, maintaining close to a 1:1 exchange rate for pegged assets while never running out of either asset.\n\n**Solidly** builds on Uniswap V2 by adding a quartic sum invariant for stable assets, producing a similar effect to StableSwap.\n\n**Dodo\x27s PMM** (Proactive Market Maker) flattens the price curve around an oracle price with a slippage parameter k that interpolates between constant product (k=1) and constant sum (k=0).\n\n**Clipper** interpolates between constant sum and constant product more explicitly, parameterized by a slippage parameter k.\n\n**Curve\x27s CryptoSwap** expands on StableSwap for volatile assets with additional parameters, dynamic fees, and an internal oracle system.\n\n## Virtual Reserve Automatic Market Makers\n\n**KyberSwap** introduced virtual reserves, multiplying real balances by an amplification factor. This provides much higher capital efficiency but means the market maker can potentially run out of one asset.\n\n**Uniswap V3** allows each liquidity provider to pick their own price range, incentivizing precise price range selection with higher yields.\n\n## Request For Quote Systems\n\nRFQ mechanisms allow for private off-chain pricing with on-chain settlement, bridging DeFi and traditional finance.\n\n## Conclusions\n\nWhile this list covers many major DEXs, there remain several significant AMMs not covered. With the enormous variation in AMM models, **DEX aggregators** have become essential. [Odos.xyz](https://odos.xyz/) is a DEX aggregator that searches more complex solutions than existing platforms, allowing for atomic multi-input trades and better rates."

/-- Long-form body of the Content Table entry with key "psi-fhe" (src/unnamed/part_000). -/
def body_psi_fhe : String :=
  "_This work was done by Gokay Saldamli and Lisandro (Lichu) Acuña at Semiotic Labs. Special thanks to Jonathan Passerat-Palmbach and the broader Flashbots team for their collaboration._\n\n## Private Set Intersection with Fully Homomorphic Encryption\n\n**Private Set Intersection (PSI)** is a cryptographic technique that enables two parties to identify common elements in their sets without leaking any information about the rest of the elements. This can be used in secure contact tracing during epidemics or in privacy-preserving human genome testing.\n\nOver the last year, Semiotic Labs has been studying PSI applications to blockchain infrastructure problems, particularly in the context of Maximal Extractable Value (MEV). Through discussions with the Flashbots team, we concluded that an efficient PSI protocol could add a lot of value to the field.\n\n### The Math\n\nThe protocol uses **Fully Homomorphic Encryption (FHE)** to eliminate reliance on an external server. FHE enables computing directly on encrypted data, preserving data privacy throughout processing.\n\nOur solution is based on Chang et al.\x27s \"Fast Private Set Intersection from Homomorphic Encryption\":\n\n0. **Context**: Alice has a set A and Bob has a set B\n1. **Setup**: Alice generates a public-secret key pair, sends public key to Bob\n2. **Set encryption**: Alice encrypts each element and sends ciphertexts to Bob\n3. **Computing intersection**: For each ciphertext, Bob homomorphically computes a product that will be zero only if the element is in the intersection\n4. **Reply extraction**: Alice decrypts the results—zeros indicate shared elements\n\nWe added an optimization that keeps the circuit depth fixed regardless of set sizes by splitting Bob\x27s set into subsets, allowing PSI on sets of any size.\n\n### The Code\n\nWe implemented the protocol using node-seal, a wrapper of Microsoft SEAL. The code is available at our [public GitHub repository](https://github.com/LichuAcu/psi-demo).\n\n### Benchmarks\n\n| Alice\x27s set | Bob\x27s set | Running time |\n|---|---|---|\n| 100 | 50 | 1,919ms |\n| 100 | 100 | 3,811ms |\n| 100 | 200 | 7,646ms |\n| 100 | 400 | 15,286ms |\n| 100 | 800 | 30,496ms |\n\nRuntime grows linearly with Bob\x27s set size, and the separate intersections can be run in parallel.\n\n### Use Cases\n\n- Private access list comparison (EIP-2930)\n- Private auctions among MEV extractors\n- Private block construction\n- Note discovery in Aztec Protocol\n\n### Limitations\n\nThe main limitation is that this protocol is designed for only two entities. Extending to n parties would require O(n²) executions."

/-- Long-form body of the Content Table entry with key "crypto-meta-analysis" (src/unnamed/part_000). -/
def body_crypto_meta_analysis : String :=
  "## Introduction\n\nMany groups have released 2024 crypto market outlooks this year. We used ChatGPT to summarize those from Messari, VanEck, Pantera Capital, Coinbase Institutional, and a16z crypto. We also include outlooks from Odos, a leading DeFi aggregator spun out of Semiotic.\n\n## Common Themes\n\nThe most common themes are Bitcoin, DeFi, Gaming, DeSoc, AI, DePIN, improving user experience, and tokenizing real-world assets (RWAs).\n\n### Bitcoin\n\nAcross the reports, there is a uniform view that Bitcoin\x27s dominance is expected to persist, driven by growing institutional interest and validation as a unique digital store of value. The upcoming halving event is highlighted as a potential catalyst for appreciation. There is excitement around a Bitcoin ETF.\n\n### DeFi\n\nDeFi represents just under 0.01% of the $510 trillion value of global financial assets, indicating significant room for expansion. Key trends include:\n\n- **RWA Diversification**: Real World Assets on public blockchains expected to be driven by DeFi natives\n- **Bitcoin Layer 2**: Led by Stacks, providing better access to Bitcoin liquidity\n- **L2s Capturing DeFi**: Significant adoption of L2 ecosystems with cheaper gas fees\n- **Rise of On-Chain Order Books**: An exciting \"L2 native\" evolution of DeFi\n\n### Gaming\n\nApproximately 3.44 billion gamers globally contribute to an expected $184 billion in revenue. Gen Z and Gen Alpha are particularly engaged, spending around 15 hours a week gaming. Blockchain gaming is predicted to see a title surpassing 1 million daily active users.\n\n### AI\n\nThe convergence of AI and crypto is seen as expanding the design horizons of crypto, with three key synergies:\n- AI agents utilizing crypto infrastructure\n- zkML innovations for smart contracts querying AI models\n- Tokenization for rewarding contributions to AI models\n\n### DePIN\n\nDePIN encompasses storage, computing, wireless connectivity, energy networks, and geospatial data collection. The cloud storage market is valued at $80 billion, yet decentralized alternatives cater to less than 0.1% despite offering costs 70% lower.\n\nNotable projects include Filecoin, Storj, Arweave, Hivemapper, and Helium.\n\n### User Experience\n\nAccount abstraction (ERC-4337) is simplifying crypto interactions. The upcoming Dencun upgrade is expected to reduce rollup transaction fees by 2-10x. Intents are emerging as a new paradigm for defining blockchain actions.\n\n### NFTs\n\nNFTs are integrating into mainstream brand strategies. Bitcoin-based NFTs through Ordinals are growing. Starbucks, Nike, and Reddit have all launched digital collectible programs.\n\n### DeSoc\n\nDecentralized social platforms like Farcaster and Lens are making strides. Key factors include portable social graphs, anti-censorship, control over algorithms, and creator monetization.\n\n### Tokenizing Real-World Assets\n\nMakerDAO\x27s reserves have shifted towards tokenized treasuries, growing from $40M to nearly $3B. Centrifuge leads the RWA space with $250M in active loans.\n\n## Selected Perspectives\n\n### Messari\nStrong long-term case for Bitcoin as a hedge against fiscal irresponsibility. Products to watch: USDT on Tron, BASE from Coinbase, Celestia, Firedancer, Farcaster, Lido, CCIP.\n\n### VanEck\nAnticipates U.S. recession in H1 2024. KYC-enabled DeFi apps expected to gain traction. Solana predicted to outperform in market cap and active users.\n\n### Pantera Capital\nEmphasizes the 1-Year HODL Wave metric. Suggests significant gains may still be ahead based on historical patterns.\n\n### Coinbase Institutional\nLayer-2 solutions growing rapidly. 59% of institutional investors expect allocations to increase. Complex regulatory landscape for stablecoins.\n\n### a16z crypto\nDecentralization matters for credibly neutral, open infrastructure. Open-source modular tech stacks unlock permissionless innovation. SNARKs are becoming mainstream for verification.\n\n---\n\n_Disclaimer: This document is for informational purposes only and does not constitute financial, legal, or investment advice._"

/-- Long-form body of the Content Table entry with key "indexer-allocation-1" (src/unnamed/part_000). -/
def body_indexer_allocation_1 : String :=
  "_This article was co-authored by Anirudh Patel, Howard Heaton from Edge & Node, and with Hope Yen from GraphOps._\n\n### TL;DR\n\nIndexers within The Graph Protocol are rewarded via an indexing reward. How can indexers optimise their allocations so as to maximise the reward they receive? In this blog post we formalise the problem in terms of a reward function and use convex optimization to find a solution.\n\n### Overview\n\nThe Graph\x27s goal is to decentralize the API and query layer of web3, enabling users to query blockchain data without a centralized service provider. \"Indexers\" serve queries to consumers. In this blog post, we focus on the problem of how an indexer should choose which data to index, and thereby, which data to serve.\n\n### The Indexer Allocation Problem\n\nSubgraphs are collections of data extracted from blockchain transactions. Indexers must be selective with which subgraphs they index. The more a subgraph is queried, the more Indexers want to be indexing it.\n\nWe rely on **curation**: the outputs of the curation process are subgraph signals, which should be roughly proportional to the volume of queries. The higher the signal on a subgraph, the higher we expect the query volume.\n\n## The Indexing Reward Function\n\nAn Indexer i has some stake σᵢ. Each subgraph j has some signal ψⱼ on it. An Indexer\x27s allocation to subgraph j is defined as Ωᵢⱼ. The indexing reward considers both the proportion of signal and the proportion of total allocation on each subgraph.\n\n## Intuition\n\n- The amount we should allocate to a subgraph is roughly a linear function of the signal on that subgraph\n- We want to place just enough stake to capture the maximum reward on each subgraph\n- When the marginal reward for increasing stake on one subgraph is less than another, we should switch\n\n## Optimizing The Indexing Reward\n\nWe want to maximize the indexing reward subject to constraints that allocations must sum to our total stake and can\x27t be negative. Since the indexing reward is a concave function of allocations, we can use convex optimization!\n\nWe use the Karush-Kuhn-Tucker conditions to find an analytic solution.\n\n### Results\n\nRunning our optimizer for an existing Indexer, we see an improvement in indexing rewards from **208,608.87 GRT to 240,739.72 GRT**. That\x27s an improvement of **15%!**\n\nThe optimal allocation allocates to way more subgraphs: the Indexer currently allocates to 70, while the optimal tool allocates to 144.\n\n### Conclusion\n\nThe above problem formulation focuses on a simplified version. We haven\x27t yet considered gas costs or resource constraints. These will turn our convex problem into a non-convex problem. The [next post](https://blog-semiotic.ghost.io/indexer-allocation-optimization-part-ii/) discusses how we can optimize this non-convex problem."

/-- Long-form body of the Content Table entry with key "sum-check" (src/unnamed/part_000). -/
def body_sum_check : String :=
  "### TL;DR\n\nIt is expensive to run transactions on the Ethereum EVM. Verifiable computing (VC) lets us outsource computing away from the EVM. Today, a popular and exciting form of VC algorithm is the SNARK. Various families of SNARKs use the **sum-check protocol**, which is a simple algorithm to introduce VC. This is a tutorial on the sum-check protocol.\n\nYou can skip straight to the finished code [here](https://github.com/0xsamgreen/sumcheck).\n\n### Background\n\nExecuting code on Ethereum is expensive. Verifiable computing algorithms promise a way to reduce costs, by outsourcing computing to untrusted parties and only verifying the result on-chain. The sum-check protocol is a foundational building block of more sophisticated SNARK algorithms.\n\nThe sum-check protocol is used to outsource the computation of a sum of a function g evaluated at all Boolean inputs. It allows a Prover P to convince a Verifier V that P computed the sum correctly.\n\n### The Sum-Check Protocol\n\nThe protocol steps are:\n\n1. **Prover P calculates the total sum** of g evaluated at all Boolean inputs\n2. **P computes a partial sum**, leaving the first variable x₁ free\n3. **Verifier V checks** that the partial sum and total sum agree when evaluated at 0 and 1\n4. **V picks a random number r₁** and sends it to P\n5. **P replaces the free variable** with r₁ and computes a partial sum leaving x₂ free\n6. **Repeat steps 3-5** for all remaining variables\n7. **V evaluates g at one input** using an oracle: g(r₁, r₂, ..., rᵥ)\n8. **If V\x27s check passes**, V accepts P\x27s proof\n\n### Example\n\nFor the function ϕ(x₁,x₂,x₃,x₄) = (NOT x₁ AND x₂) AND (x₃ OR x₄), the arithmetized version is:\n\ng(x₁,x₂,x₃,x₄) = (1-x₁)·x₂·((x₃+x₄)-(x₃·x₄))\n\nThe Boolean-to-arithmetic conversion rules:\n\n| Boolean gate | Arithmetized version |\n|---|---|\n| A AND B | A*B |\n| A OR B | (A+B)-(A*B) |\n| NOT A | 1-A |\n\nEvaluating g at all 16 Boolean inputs gives g₀ = 3 (the #SAT answer).\n\nThe security of sum-check derives from the Schwartz–Zippel lemma—essentially random sampling for quality control. With sum-check, the cost for V drops from 2ᵛ evaluations to just v steps plus a single evaluation of g.\n\n### Conclusions\n\nPython code implementing sum-check can be found in [this repo](https://github.com/0xsamgreen/sumcheck). The Fiat–Shamir transform can make sum-check non-interactive, which is what SNARKs also use."

/-- The Content Table `blogContent` (src/unnamed/part_000): the mapping from post identifier to long-form text body, in source order. -/
def blogContent : List (String × String) :=
  [("cctp-rs", body_cctp_rs),
   ("verifiable-extraction", body_verifiable_extraction),
   ("homomorphic-signatures", body_homomorphic_signatures),
   ("automated-query-pricing", body_automated_query_pricing),
   ("indexer-allocation-2", body_indexer_allocation_2),
   ("amm-overview", body_amm_overview),
   ("psi-fhe", body_psi_fhe),
   ("crypto-meta-analysis", body_crypto_meta_analysis),
   ("indexer-allocation-1", body_indexer_allocation_1),
   ("sum-check", body_sum_check)]

/-- Catalog record with id "cctp-rs" (src/src/data/blogPosts.ts). The image field holds the imported asset path. -/
def post_cctp_rs : BlogPost :=
  { id := "cctp-rs",
    title := "Building cctp-rs: A Production-Grade Rust SDK for Cross-Chain USDC Transfers",
    excerpt := "How we built an open-source library that\x27s moved millions in USDC across blockchains. At Semiotic, we often find ourselves building infrastructure that doesn\x27t exist yet.",
    category := "Payments & Settlement",
    image := "@/assets/blog/cctp-rs.png",
    url := "https://blog-semiotic.ghost.io/building-cctp-rs-a-production-grade-rust-sdk-for-cross-chain-usdc-transfers/",
    featured := true }

/-- Catalog record with id "verifiable-extraction" (src/src/data/blogPosts.ts). The image field holds the imported asset path. -/
def post_verifiable_extraction : BlogPost :=
  { id := "verifiable-extraction",
    title := "Verifiable Extraction in The Graph",
    excerpt := "We discuss the methodology that Semiotic Labs uses to verify that blockchain data extracted from some source matches the history of the chain.",
    category := "Cryptography & Security",
    image := "@/assets/blog/verifiable-extraction.png",
    url := "https://blog-semiotic.ghost.io/verifiable-extraction-in-the-graph/",
    featured := false }

/-- Catalog record with id "homomorphic-signatures" (src/src/data/blogPosts.ts). The image field holds the imported asset path. -/
def post_homomorphic_signatures : BlogPost :=
  { id := "homomorphic-signatures",
    title := "Homomorphic Signatures for Payment Channels",
    excerpt := "This post discusses design and optimization of verifiable micropayments over a state channel, a feature of Semiotic Labs\x27 GraphTally library for The Graph.",
    category := "Cryptography & Security",
    image := "@/assets/blog/homomorphic-signatures.png",
    url := "https://blog-semiotic.ghost.io/homomorphic-signatures-for-payment-channels/",
    featured := false }

/-- Catalog record with id "automated-query-pricing" (src/src/data/blogPosts.ts). The image field holds the imported asset path. -/
def post_automated_query_pricing : BlogPost :=
  { id := "automated-query-pricing",
    title := "Automated Query Pricing in The Graph",
    excerpt := "To help indexers with pricing in the relative resource cost of serving different query shapes, we are developing AutoAgora, an automation tool.",
    category := "AI & Optimization",
    image := "@/assets/blog/automated-query-pricing.png",
    url := "https://blog-semiotic.ghost.io/automated-query-pricing-in-the-graph/",
    featured := false }

/-- Catalog record with id "indexer-allocation-2" (src/src/data/blogPosts.ts). The image field holds the imported asset path. -/
def post_indexer_allocation_2 : BlogPost :=
  { id := "indexer-allocation-2",
    title := "Indexer Allocation Optimization: Part II",
    excerpt := "How can we enable Indexers to input their preferences into the Allocation Optimizer and how do those preferences impact the optimization problem?",
    category := "Optimization",
    image := "@/assets/blog/indexer-part-2.png",
    url := "https://blog-semiotic.ghost.io/indexer-allocation-optimization-part-ii/",
    featured := false }

/-- Catalog record with id "amm-overview" (src/src/data/blogPosts.ts). The image field holds the imported asset path. -/
def post_amm_overview : BlogPost :=
  { id := "amm-overview",
    title := "An Overview of Automatic Market Maker Mechanisms",
    excerpt := "This article explores the principles and mechanisms behind the many popular AMM designs currently used in production, with graphical representations.",
    category := "DeFi",
    image := "@/assets/blog/automatic-market-maker.png",
    url := "https://blog-semiotic.ghost.io/an-overview-of-automatic-market-maker-mechanisms/",
    featured := false }

/-- Catalog record with id "psi-fhe" (src/src/data/blogPosts.ts). The image field holds the imported asset path. -/
def post_psi_fhe : BlogPost :=
  { id := "psi-fhe",
    title := "PSI with FHE",
    excerpt := "Private Set Intersection is a cryptographic technique that allows two parties to identify shared information without leaking any other data.",
    category := "Cryptography & Security",
    image := "@/assets/blog/psi-with-fhe.png",
    url := "https://blog-semiotic.ghost.io/psi-with-fhe/",
    featured := false }

/-- Catalog record with id "crypto-meta-analysis" (src/src/data/blogPosts.ts). The image field holds the imported asset path. -/
def post_crypto_meta_analysis : BlogPost :=
  { id := "crypto-meta-analysis",
    title := "2024 Crypto Meta-Analysis",
    excerpt := "We used ChatGPT to summarize crypto market outlooks from Messari, VanEck, Pantera Capital, Coinbase Institutional, a16z crypto, and Odos.",
    category := "Research",
    image := "@/assets/blog/crypto-meta-analysis.png",
    url := "https://blog-semiotic.ghost.io/2024-crypto-meta-analysis/",
    featured := false }

/-- Catalog record with id "indexer-allocation-1" (src/src/data/blogPosts.ts). The image field holds the imported asset path. -/
def post_indexer_allocation_1 : BlogPost :=
  { id := "indexer-allocation-1",
    title := "Indexer Allocation Optimization: Part I",
    excerpt := "How can indexers optimise their allocations so as to maximise the reward they receive? We formalise the problem and use convex optimization.",
    category := "Optimization",
    image := "@/assets/blog/indexer-part-1.png",
    url := "https://blog-semiotic.ghost.io/indexer-allocation-optimization-part-i/",
    featured := false }

/-- Catalog record with id "sum-check" (src/src/data/blogPosts.ts). The image field holds the imported asset path. -/
def post_sum_check : BlogPost :=
  { id := "sum-check",
    title := "Introduction to the Sum-Check Protocol",
    excerpt := "Verifiable computing lets us outsource computing away from the EVM. Various families of SNARKs use the sum-check protocol, a simple VC algorithm.",
    category := "Cryptography & Security",
    image := "@/assets/blog/sum-check.png",
    url := "https://blog-semiotic.ghost.io/introduction-to-the-sum-check-protocol/",
    featured := false }

/-- The Catalog `blogPosts` (src/src/data/blogPosts.ts): the ordered sequence of post metadata records. -/
def blogPosts : List BlogPost :=
  [post_cctp_rs,
   post_verifiable_extraction,
   post_homomorphic_signatures,
   post_automated_query_pricing,
   post_indexer_allocation_2,
   post_amm_overview,
   post_psi_fhe,
   post_crypto_meta_analysis,
   post_indexer_allocation_1,
   post_sum_check]

/-- Property names reachable through the prototype chain of a plain object
literal: the standard members of `Object.prototype`.  Indexing the Content
Table object with one of these keys yields an inherited function value even
though the key is not an own key. -/
def protoProps : List String :=
  ["constructor", "hasOwnProperty", "isPrototypeOf", "propertyIsEnumerable",
   "toLocaleString", "toString", "valueOf", "__defineGetter__",
   "__defineSetter__", "__lookupGetter__", "__lookupSetter__", "__proto__"]

/-- Own-key lookup on the Content Table object: the entry whose key equals
the requested identifier, if any. -/
def ownLookup (entries : List (String × String)) (key : String) : Option String :=
  (entries.find? (fun e => e.1 == key)).map Prod.snd

/-- JavaScript bracket indexing `entries[key]` on a plain object literal:
own string properties first, then members inherited from `Object.prototype`. -/
def contentIndex (entries : List (String × String)) (key : String) : Option JSVal :=
  match ownLookup entries key with
  | some s => some (JSVal.str s)
  | none => if protoProps.contains key then some JSVal.protoFn else none

/-- JavaScript truthiness of an indexing result: the empty string is falsy,
every other string is truthy, and an inherited function is truthy. -/
def jsTruthy : JSVal → Bool
  | JSVal.str s => !(s == "")
  | JSVal.protoFn => true

/-- Catalog lookup `blogPosts.find((p) => p.id === slug)`
(src/unnamed/part_001, line 11). -/
def findPost (posts : List BlogPost) (slug : String) : Option BlogPost :=
  posts.find? (fun p => p.id == slug)

/-- The Resolver, generic in the two tables, translating lines 11-15 of the
`BlogPost` page component (src/unnamed/part_001):
`const post = blogPosts.find((p) => p.id === slug);`
`const content = slug ? blogContent[slug] : undefined;`
`if (!post || !content) ...not found... else ...render (post, content)...`.
The guard reads both values with JavaScript truthiness: an absent `post`, an
absent `content`, or a falsy (empty-string) `content` all take the
not-found branch. -/
def resolvePostIn (posts : List BlogPost) (entries : List (String × String))
    (slug : String) : ResolveResult :=
  match findPost posts slug, (if slug == "" then none else contentIndex entries slug) with
  | some p, some c =>
    if jsTruthy c then ResolveResult.found p c else ResolveResult.postNotFound
  | _, _ => ResolveResult.postNotFound

/-- The Resolver applied to the shipped tables. -/
def resolvePost (slug : String) : ResolveResult :=
  resolvePostIn blogPosts blogContent slug

/-- State-passing form of the Resolver: the component only ever reads the two
tables (no write path exists in the source), which the embedding expresses by
threading the tables through unchanged. -/
def resolveWithState (tables : List BlogPost × List (String × String))
    (slug : String) : ResolveResult × (List BlogPost × List (String × String)) :=
  (resolvePostIn tables.1 tables.2 slug, tables)

/-- Featured slot of the Listing Partition:
`const featured = blogPosts.find((p) => p.featured);`
(src/src/components/BlogGrid.tsx, line 5). -/
def blogGridFeatured (posts : List BlogPost) : Option BlogPost :=
  posts.find? (fun p => p.featured)

/-- Remainder of the Listing Partition:
`const rest = blogPosts.filter((p) => !p.featured);`
(src/src/components/BlogGrid.tsx, line 6). -/
def blogGridRest (posts : List BlogPost) : List BlogPost :=
  posts.filter (fun p => !p.featured)

/-! ### Shared facts about the shipped data and generic lookup lemmas -/

/-- The identifiers of the shipped Catalog records are pairwise distinct. -/
lemma blogPosts_ids_nodup : (blogPosts.map (fun p => p.id)).Nodup := by decide

/-- The own keys of the shipped Content Table are, in order, exactly the
identifiers of the shipped Catalog records. -/
lemma blogContent_keys_eq : blogContent.map Prod.fst = blogPosts.map (fun p => p.id) := by
  decide

/-- No shipped Content Table key is the empty string. -/
lemma blogContent_keys_ne_empty : blogContent.all (fun e => !(e.1 == "")) = true := by
  decide

/-- No shipped Content Table body is the empty string. -/
lemma blogContent_bodies_ne_empty : blogContent.all (fun e => !(e.2 == "")) = true := by
  decide

/-- Catalog lookup by the id of a member record returns that record, provided
the catalog's ids are pairwise distinct. -/
lemma findPost_of_mem_nodup (l : List BlogPost) (p : BlogPost)
    (hn : (l.map (fun q => q.id)).Nodup) (hm : p ∈ l) :
    findPost l p.id = some p := by
  induction l with
  | nil => cases hm
  | cons q t ih =>
    rcases List.mem_cons.mp hm with hq | ht
    · subst hq
      simp [findPost, List.find?]
    · have hn2 : (q.id :: t.map (fun q => q.id)).Nodup := hn
      have hn' := List.nodup_cons.mp hn2
      have hqid : q.id ≠ p.id := by
        intro he
        exact hn'.1 (he ▸ List.mem_map.mpr ⟨p, ht, rfl⟩)
      have hstep : (q.id == p.id) = false := by
        exact beq_eq_false_iff_ne.mpr hqid
      have := ih hn'.2 ht
      simpa [findPost, List.find?, hstep] using this

/-- Structure of a successful `find?`: the found element satisfies the
predicate, splits the list, and everything before it fails the predicate. -/
lemma find?_eq_some_structure {α : Type} (pr : α → Bool) :
    ∀ (l : List α) (a : α), l.find? pr = some a →
      pr a = true ∧ ∃ l₁ l₂, l = l₁ ++ a :: l₂ ∧ ∀ x ∈ l₁, pr x = false
  | [], a, h => by simp [List.find?] at h
  | b :: t, a, h => by
    by_cases hb : pr b = true
    · have hba : b = a := by
        simpa [List.find?, hb] using h
      subst hba
      exact ⟨hb, [], t, rfl, by simp⟩
    · have ht : t.find? pr = some a := by
        simpa [List.find?, hb] using h
      obtain ⟨hpa, l₁, l₂, hsplit, hl₁⟩ := find?_eq_some_structure pr t a ht
      refine ⟨hpa, b :: l₁, l₂, by simp [hsplit], ?_⟩
      intro x hx
      rcases List.mem_cons.mp hx with hxb | hxl
      · subst hxb; simpa using hb
      · exact hl₁ x hxl

/-- When the Catalog lookup fails, the Resolver takes the not-found branch
whatever the Content Table indexing produced. -/
lemma resolvePostIn_find_none (posts : List BlogPost) (entries : List (String × String))
    (slug : String) (h : findPost posts slug = none) :
    resolvePostIn posts entries slug = ResolveResult.postNotFound := by
  unfold resolvePostIn
  rw [h]

/-- When the Catalog lookup succeeds, the slug is nonempty, and the Content
Table indexing produces a truthy value, the Resolver returns the pair. -/
lemma resolvePostIn_found (posts : List BlogPost) (entries : List (String × String))
    (slug : String) (p : BlogPost) (c : JSVal)
    (h1 : findPost posts slug = some p) (h2 : (slug == "") = false)
    (h3 : contentIndex entries slug = some c) (h4 : jsTruthy c = true) :
    resolvePostIn posts entries slug = ResolveResult.found p c := by
  simp [resolvePostIn, h1, h2, h3, h4]

/-- C1: for every identifier that is the id of some Catalog record and an own
key of the Content Table, the Resolver returns a resolved pair whose metadata
is that Catalog record exactly and whose text body is that Content Table
entry exactly. -/
theorem resolver_join_exact (p : BlogPost) (body : String)
    (hp : p ∈ blogPosts) (hb : ownLookup blogContent p.id = some body) :
    resolvePost p.id = ResolveResult.found p (JSVal.str body) := by
  have hfind : findPost blogPosts p.id = some p :=
    findPost_of_mem_nodup blogPosts p blogPosts_ids_nodup hp
  have hfe : ∃ e, blogContent.find? (fun e => e.1 == p.id) = some e ∧ e.2 = body := by
    unfold ownLookup at hb
    cases hfind2 : blogContent.find? (fun e => e.1 == p.id) with
    | none => rw [hfind2] at hb; simp at hb
    | some e =>
      rw [hfind2] at hb
      simp at hb
      exact ⟨e, rfl, hb⟩
  obtain ⟨e, hfe, hbody⟩ := hfe
  have hmem : e ∈ blogContent := List.mem_of_find?_eq_some hfe
  have hkey := List.find?_some hfe
  have hkey' : e.1 = p.id := by simpa using hkey
  have hkne : (p.id == "") = false := by
    have h1 := List.all_eq_true.mp blogContent_keys_ne_empty e hmem
    rw [hkey'] at h1
    simpa using h1
  have hbne : (body == "") = false := by
    have h1 := List.all_eq_true.mp blogContent_bodies_ne_empty e hmem
    rw [hbody] at h1
    simpa using h1
  have hci : contentIndex blogContent p.id = some (JSVal.str body) := by
    unfold contentIndex ownLookup
    rw [hfe]
    simp [hbody]
  have htr : jsTruthy (JSVal.str body) = true := by simp [jsTruthy, hbne]
  exact resolvePostIn_found _ _ _ _ _ hfind hkne hci htr

/-- Witness for C1 at the identifier of the first Catalog record. -/
theorem resolver_join_exact_witness :
    post_cctp_rs ∈ blogPosts ∧
      ownLookup blogContent post_cctp_rs.id = some body_cctp_rs ∧
      resolvePost post_cctp_rs.id =
        ResolveResult.found post_cctp_rs (JSVal.str body_cctp_rs) :=
  ⟨by decide, rfl, resolver_join_exact post_cctp_rs body_cctp_rs (by decide) rfl⟩

/-- C2: for every identifier absent from the Catalog, absent from the Content
Table, or absent from both, the Resolver returns the single `postNotFound`
outcome: all three absence categories collapse to one observable result. -/
theorem resolver_absent_postNotFound (slug : String)
    (h : findPost blogPosts slug = none ∨ ownLookup blogContent slug = none) :
    resolvePost slug = ResolveResult.postNotFound := by
  have hnone : findPost blogPosts slug = none := by
    rcases h with h | h
    · exact h
    · have hf : blogContent.find? (fun e => e.1 == slug) = none := by
        unfold ownLookup at h
        exact Option.map_eq_none'.mp h
      rw [List.find?_eq_none] at hf
      unfold findPost
      rw [List.find?_eq_none]
      intro p hp hpid
      have hpid' : p.id = slug := by simpa using hpid
      have hkeys : slug ∈ blogContent.map Prod.fst := by
        rw [blogContent_keys_eq]
        exact List.mem_map.mpr ⟨p, hp, hpid'⟩
      obtain ⟨e, he, hee⟩ := List.mem_map.mp hkeys
      exact hf e he (by simp [hee])
  exact resolvePostIn_find_none _ _ _ hnone

/-- Witness for C2 at the identifier from the spec scenario. -/
theorem resolver_absent_postNotFound_witness :
    resolvePost "does-not-exist" = ResolveResult.postNotFound :=
  resolver_absent_postNotFound "does-not-exist" (Or.inl (by decide))

/-- C6: the Resolver is total — every input identifier yields either a
resolved pair or the `postNotFound` variant; no other outcome exists. -/
theorem resolver_total (slug : String) :
    resolvePost slug = ResolveResult.postNotFound ∨
      ∃ p c, resolvePost slug = ResolveResult.found p c := by
  cases h : resolvePost slug with
  | found p c => exact Or.inr ⟨p, c, rfl⟩
  | postNotFound => exact Or.inl rfl

/-- C7: the Resolver is deterministic and pure — it leaves the tables
unchanged, and a second call on the tables returned by the first call gives
the same result as the first. -/
theorem resolver_pure (tables : List BlogPost × List (String × String)) (slug : String) :
    (resolveWithState tables slug).2 = tables ∧
      (resolveWithState (resolveWithState tables slug).2 slug).1 =
        (resolveWithState tables slug).1 :=
  ⟨rfl, rfl⟩

/-- C10: for an identifier that is not the id of any Catalog record, the
Resolver returns `postNotFound` even when indexing the Content Table object
with that identifier yields a non-absent inherited value (for example
`Object.prototype` members such as the key "toString"): the resolved branch
requires the Catalog lookup to succeed. -/
theorem resolver_requires_catalog (slug : String)
    (h1 : findPost blogPosts slug = none)
    (_h2 : contentIndex blogContent slug ≠ none) :
    resolvePost slug = ResolveResult.postNotFound :=
  resolvePostIn_find_none blogPosts blogContent slug h1

/-- Witness for C10 at the key "toString", which is absent from the Catalog
yet indexes to an inherited truthy value on the Content Table object. -/
theorem resolver_requires_catalog_witness :
    findPost blogPosts "toString" = none ∧
      contentIndex blogContent "toString" = some JSVal.protoFn ∧
      resolvePost "toString" = ResolveResult.postNotFound :=
  ⟨by decide, by decide,
    resolver_requires_catalog "toString" (by decide) (by decide)⟩

/-- Catalog used to exercise the multiple-featured case: the shipped featured
record, a second record also marked featured, and a non-featured record. -/
def secondFeatured : BlogPost := { post_sum_check with featured := true }

/-- Three-record catalog with two featured records and one non-featured one. -/
def multiFeaturedCatalog : List BlogPost :=
  [post_cctp_rs, secondFeatured, post_amm_overview]

/-- Counterexample to C3: with two featured records, the Listing Partition
keeps the first as featured, but the second featured record does NOT fall
into the remainder — the remainder holds only the non-featured record. -/
theorem listing_partition_multi_featured_cex :
    blogGridFeatured multiFeaturedCatalog = some post_cctp_rs ∧
      blogGridRest multiFeaturedCatalog = [post_amm_overview] ∧
      secondFeatured ∉ blogGridRest multiFeaturedCatalog := by
  refine ⟨rfl, rfl, ?_⟩
  decide

/-- C3 (amended): for every Catalog with more than one featured record, the
Listing Partition treats the first featured record (in insertion order) as
featured, and every featured record — the extra featured ones included — is
excluded from the remainder rather than relegated to it. -/
theorem listing_partition_multi_featured (posts : List BlogPost)
    (h : 1 < posts.countP (fun p => p.featured)) :
    (∃ p l₁ l₂, blogGridFeatured posts = some p ∧ p.featured = true ∧
        posts = l₁ ++ p :: l₂ ∧ ∀ q ∈ l₁, q.featured = false) ∧
      ∀ q, q.featured = true → q ∉ blogGridRest posts := by
  constructor
  · have hex : ∃ a ∈ posts, (fun p => p.featured) a = true :=
      List.countP_pos_iff.mp (Nat.lt_trans Nat.zero_lt_one h)
    have hsome : (posts.find? (fun p => p.featured)).isSome = true :=
      List.find?_isSome.mpr hex
    obtain ⟨p, hp⟩ := Option.isSome_iff_exists.mp hsome
    obtain ⟨hpf, l₁, l₂, hsplit, hl₁⟩ := find?_eq_some_structure _ posts p hp
    exact ⟨p, l₁, l₂, hp, hpf, hsplit, hl₁⟩
  · intro q hq hmem
    have hmem' : q ∈ posts.filter (fun p => !p.featured) := hmem
    have := (List.mem_filter.mp hmem').2
    simp [hq] at this

/-- Witness for the amended C3 on the concrete two-featured catalog. -/
theorem listing_partition_multi_featured_witness :
    1 < multiFeaturedCatalog.countP (fun p => p.featured) ∧
      ((∃ p l₁ l₂, blogGridFeatured multiFeaturedCatalog = some p ∧ p.featured = true ∧
          multiFeaturedCatalog = l₁ ++ p :: l₂ ∧ ∀ q ∈ l₁, q.featured = false) ∧
        ∀ q, q.featured = true → q ∉ blogGridRest multiFeaturedCatalog) :=
  ⟨by decide, listing_partition_multi_featured multiFeaturedCatalog (by decide)⟩

/-- Catalog shaped like the spec scenario: A(featured=false), B(featured=true),
C(featured=false). -/
def scenarioCatalog : List BlogPost :=
  [post_verifiable_extraction, post_cctp_rs, post_amm_overview]

/-- C4: for every Catalog with at most one featured record, the Listing
Partition yields an absent featured value and the whole catalog as remainder
when no record is featured, and otherwise yields the featured record plus all
other records, in their original order, as the remainder. -/
theorem listing_partition_at_most_one (posts : List BlogPost)
    (h : posts.countP (fun p => p.featured) ≤ 1) :
    (blogGridFeatured posts = none → blogGridRest posts = posts) ∧
      ∀ p, blogGridFeatured posts = some p → p.featured = true ∧
        ∃ l₁ l₂, posts = l₁ ++ p :: l₂ ∧ blogGridRest posts = l₁ ++ l₂ := by
  constructor
  · intro hnone
    have hall := List.find?_eq_none.mp hnone
    unfold blogGridRest
    rw [List.filter_eq_self]
    intro a ha
    have := hall a ha
    simpa using this
  · intro p hp
    obtain ⟨hpf, l₁, l₂, hsplit, hl₁⟩ := find?_eq_some_structure _ posts p hp
    refine ⟨hpf, l₁, l₂, hsplit, ?_⟩
    have h0 : l₁.countP (fun q => q.featured) = 0 :=
      List.countP_eq_zero.mpr (fun a ha => by simp [hl₁ a ha])
    have hcnt : posts.countP (fun q => q.featured)
        = l₁.countP (fun q => q.featured) + (l₂.countP (fun q => q.featured) + 1) := by
      rw [hsplit, List.countP_append, List.countP_cons_of_pos _ _ hpf]
    have h2 : l₂.countP (fun q => q.featured) = 0 := by omega
    have hl₂ : ∀ a ∈ l₂, a.featured = false := by
      intro a ha
      have := List.countP_eq_zero.mp h2 a ha
      simpa using this
    have hf1 : l₁.filter (fun q => !q.featured) = l₁ :=
      List.filter_eq_self.mpr (fun a ha => by simp [hl₁ a ha])
    have hf2 : l₂.filter (fun q => !q.featured) = l₂ :=
      List.filter_eq_self.mpr (fun a ha => by simp [hl₂ a ha])
    unfold blogGridRest
    rw [hsplit, List.filter_append, hf1, List.filter_cons_of_neg (by simp [hpf]), hf2]

/-- Witness for C4 on the spec scenario catalog [A(false), B(true), C(false)]:
the partition picks B as featured and leaves [A, C] as remainder. -/
theorem listing_partition_at_most_one_witness :
    scenarioCatalog.countP (fun p => p.featured) ≤ 1 ∧
      blogGridFeatured scenarioCatalog = some post_cctp_rs ∧
      blogGridRest scenarioCatalog = [post_verifiable_extraction, post_amm_overview] ∧
      ((blogGridFeatured scenarioCatalog = none → blogGridRest scenarioCatalog = scenarioCatalog) ∧
        ∀ p, blogGridFeatured scenarioCatalog = some p → p.featured = true ∧
          ∃ l₁ l₂, scenarioCatalog = l₁ ++ p :: l₂ ∧ blogGridRest scenarioCatalog = l₁ ++ l₂) :=
  ⟨by decide, rfl, rfl, listing_partition_at_most_one scenarioCatalog (by decide)⟩

/-- C5: the identifier "sum-check" resolves to the pair of the sum-check
Catalog record — whose title is "Introduction to the Sum-Check Protocol" —
and the sum-check body, whose first nine characters are "### TL;DR". -/
theorem sum_check_scenario :
    resolvePost "sum-check" = ResolveResult.found post_sum_check (JSVal.str body_sum_check) ∧
      post_sum_check.title = "Introduction to the Sum-Check Protocol" ∧
      body_sum_check.data.take 9 = "### TL;DR".data :=
  ⟨rfl, rfl, by decide⟩

/-- C8: the identifiers of the shipped Catalog records are pairwise distinct. -/
theorem catalog_ids_pairwise_distinct :
    List.Pairwise (fun a b => a.id ≠ b.id) blogPosts := by
  have hn : List.Pairwise (fun a b : String => a ≠ b)
      (blogPosts.map (fun p => p.id)) := blogPosts_ids_nodup
  exact List.pairwise_map.mp hn

/-- C9: the own keys of the shipped Content Table and the identifiers of the
shipped Catalog form the same set of strings. -/
theorem content_keys_match_catalog_ids (s : String) :
    s ∈ blogContent.map Prod.fst ↔ s ∈ blogPosts.map (fun p => p.id) := by
  rw [blogContent_keys_eq]
